import Mathlib

/-!
Verification development for the support-billing-tracker message pipeline.
Texts are modelled as lists of characters; `strL` injects Lean string
literals. The Normalizer embeds `clean_message_text` from
`src/data_preprocessor.py`; the Classifier embeds `extract_urgency`,
`is_excluded_message`, `is_work_related`, `extract_request_type` and the
per-message record construction of `process_messages` from
`src/thad-request-extractor/request_extractor.py`, together with the rule
tables of `src/thad-request-extractor/request_patterns.py`.
-/

def strL (s : String) : List Char := s.data

/-- The apostrophe character, kept out of string literals. -/
def apos : Char := Char.ofNat 39

/-- The double-quote character. -/
def dqc : Char := Char.ofNat 34

/-- Python whitespace class for ASCII text: space, tab, newline, carriage
return, vertical tab, form feed. -/
def isWs (c : Char) : Bool :=
  c == ' ' || c == '\t' || c == '\n' || c == '\r' || c == Char.ofNat 11 || c == Char.ofNat 12

def lowerL (t : List Char) : List Char := t.map Char.toLower

/-- Python str.strip(): drop whitespace from both ends. -/
def stripWs (t : List Char) : List Char :=
  ((t.dropWhile isWs).reverse.dropWhile isWs).reverse

/-- Substring test: does `p` occur contiguously inside `t`. -/
def containsSub (p : List Char) : List Char → Bool
  | [] => p.isEmpty
  | c :: t => p.isPrefixOf (c :: t) || containsSub p t

/-- Number of maximal runs of non-whitespace characters, as in Python
str.split() with no argument; the flag records being inside a word. -/
def countTokensAux (inWord : Bool) : List Char → Nat
  | [] => 0
  | c :: t =>
    if isWs c then countTokensAux false t
    else (if inWord then 0 else 1) + countTokensAux true t

def countTokens (t : List Char) : Nat := countTokensAux false t

/-- Scan for one literal piece after a newline-free gap; on success hand
the remaining text to the continuation. -/
def scanOne (p : List Char) (k : List Char → Bool) : List Char → Bool
  | [] => false
  | c :: t =>
    (p.isPrefixOf (c :: t) && k ((c :: t).drop p.length))
      || (!(c == '\n') && scanOne p k t)

/-- Scan for a regex-style chain of literal pieces: each piece may be
preceded by a gap of characters that excludes the newline (the dot of a
Python regex does not cross a line). -/
def scanChain : List (List Char) → List Char → Bool
  | [], _ => true
  | p :: ps, t => scanOne p (scanChain ps) t

/-- The chain anchored at the current position: the first piece must match
here, later pieces may follow arbitrary newline-free gaps. -/
def chainStart : List (List Char) → List Char → Bool
  | [], _ => true
  | p :: ps, t => p.isPrefixOf t && scanChain ps (t.drop p.length)

/-- Try a predicate at every suffix of the text (regex search scans all
start positions, crossing newlines while doing so). -/
def anyPos (f : List Char → Bool) : List Char → Bool
  | [] => f []
  | c :: t => f (c :: t) || anyPos f t

/-- Python re.search of `p0 .* p1 .* ... pn`: some start position begins the
chain, with newline-free gaps between the pieces. -/
def searchChain (ps : List (List Char)) (t : List Char) : Bool :=
  anyPos (chainStart ps) t

/-- A `^word$` regex on a whole text: equal to the word, or to the word
followed by one final newline (Python dollar also matches there). -/
def lineExact (w : List Char) (lt : List Char) : Bool :=
  lt == w || lt == w ++ ['\n']

theorem containsSub_here (p t : List Char) (h : p.isPrefixOf t = true) :
    containsSub p t = true := by
  cases t with
  | nil => cases p with
    | nil => rfl
    | cons a l => simp [List.isPrefixOf] at h
  | cons c r => simp [containsSub, h]

theorem sanity_scanChain : searchChain [strL "ab", strL "cd"] (strL "xxabyycdz") = true := by decide

theorem sanity_scanChain_nl : searchChain [strL "ab", strL "cd"] (strL "xxaby\nycdz") = false := by decide

theorem sanity_tokens : countTokens (strL "  ok   sure ") = 2 := by decide

/-! ## Normalizer: `clean_message_text` of `src/data_preprocessor.py` -/

/-- Split a text at its first plus sign: the plus-free part before and the
part after the sign. -/
def splitFirstPlus : List Char → Option (List Char × List Char)
  | [] => none
  | c :: t =>
    if c == '+' then some ([], t)
    else (splitFirstPlus t).map (fun pr => (c :: pr.1, pr.2))

def dropStart (p t : List Char) : Option (List Char) :=
  if p.isPrefixOf t then some (t.drop p.length) else none

/-- Stage 0: re.sub of the anchored wrapper regex streamtyped, whitespace,
at-sign, whitespace, at least one non-plus character, plus sign; the match
is removed, with removal ending at the first plus sign. -/
def stripStreamtyped (t : List Char) : List Char :=
  match dropStart (strL "streamtyped") t with
  | none => t
  | some r1 =>
    match r1 with
    | [] => t
    | c1 :: _ =>
      if isWs c1 then
        match r1.dropWhile isWs with
        | [] => t
        | a :: r3 =>
          if a == '@' then
            match r3 with
            | [] => t
            | c2 :: _ =>
              if isWs c2 then
                match splitFirstPlus r3 with
                | some (before, rest) => if 2 ≤ before.length then rest else t
                | none => t
              else t
          else t
      else t

/-- The three characters of the mis-encoded object replacement marker that
stage 1 deletes everywhere. -/
def objChar3 : List Char := [Char.ofNat 239, Char.ofNat 191, Char.ofNat 188]

/-- Stage 1a: str.replace of the marker by the empty string. -/
def removeObjChar : List Char → List Char
  | [] => []
  | a :: b :: c :: t =>
    if [a, b, c] == objChar3 then removeObjChar t
    else a :: removeObjChar (b :: c :: t)
  | a :: t => a :: removeObjChar t

/-- ASCII control codes outside printable or whitespace range, as in the
character class of stage 1b. -/
def isCtrl (c : Char) : Bool :=
  (c.toNat ≤ 8) || (c.toNat == 11) || (c.toNat == 12)
    || (14 ≤ c.toNat && c.toNat ≤ 31)

def removeCtrl (t : List Char) : List Char := t.filter (fun c => !(isCtrl c))

/-- Tail admitted by the dot-star-dollar part of the stage 2 regex: either
no newline at all, or a single final newline that the dollar anchor sits in
front of (that newline is kept by the substitution). -/
def tailRepl (r : List Char) : Option (List Char) :=
  if !(r.contains '\n') then some []
  else if r.getLast? == some '\n' && !(r.dropLast.contains '\n') then some ['\n']
  else none

/-- Stage 2: re.sub of the pattern lowercase i, uppercase I, dot-star,
optional NSDictionary, dollar.  Deletion starts at the first matching
occurrence of the two-character key and runs to the end of the string. -/
def dropFromiI : List Char → List Char
  | [] => []
  | c :: t =>
    if c = 'i' ∧ t.head? = some 'I' then
      match tailRepl t.tail with
      | some keep => keep
      | none => c :: dropFromiI t
    else c :: dropFromiI t

/-- Stage 3: drop one leading plus sign. -/
def plusStrip (t : List Char) : List Char :=
  match t with
  | c :: r => if c == '+' then r else t
  | [] => t

/-- Stage 4 table: the ordered malformed-prefix dictionary, in source
order; the first key that is a prefix of the text is rewritten. -/
def malformedStarts : List (List Char × List Char) :=
  [ (strL "TGood", strL "Good"), (strL "GLmk", strL "Lmk"),
    (strL "GI have", strL "I have"),
    (strL "JDon" ++ apos :: strL "t", strL "Don" ++ apos :: strL "t"),
    (strL "kAwesome", strL "Awesome"),
    (strL "nThey" ++ apos :: strL "re", strL "They" ++ apos :: strL "re"),
    (strL ".Good", strL "Good"), (strL "/Laughed", strL "Laughed"),
    (strL "lIt is", strL "It is"), (strL "lYeah", strL "Yeah"),
    (strL "cI have", strL "I have"), (strL "oLiked", strL "Liked"),
    (strL "CLiked", strL "Liked"), (strL "eSHIP", strL "SHIP"),
    (strL "9Ooh", strL "Ooh"), (strL "4Knew", strL "Knew"),
    (strL "qMaj", strL "Maj"), (strL "KVery", strL "Very"),
    (strL "*Nice", strL "Nice"), (strL "7Yes", strL "Yes"),
    (strL "7All", strL "All"), (strL "LLove", strL "Love"),
    (strL "JDon", strL "Don"), (strL "iUp", strL "Up"),
    (strL "JBlueHost", strL "BlueHost"), (strL "/They", strL "They"),
    (strL "2They", strL "They"), (strL "lI", strL "I"),
    (strL "oK", strL "OK"), (strL "jI", strL "I"),
    (strL "OCan", strL "Can"), (strL "kGood", strL "Good"),
    (strL "SWe", strL "We"), (strL "rOperation", strL "Operation"),
    (strL "0Phantom", strL "Phantom"), (strL "QLiked", strL "Liked"),
    (strL "0Emphasized", strL "Emphasized"),
    (strL "%Emphasized", strL "Emphasized"),
    (apos :: strL "Got", strL "Got"), (strL ".Dropping", strL "Dropping"),
    (strL "AGood", strL "Good"), (strL "JPlease", strL "Please"),
    (strL "AAll", strL "All"), (strL "JI", strL "I"),
    (strL "AGot", strL "Got"), (strL "JThey", strL "They"),
    (strL "AThank", strL "Thank"), (strL "JThanks", strL "Thanks"),
    (strL "AYeah", strL "Yeah"), (strL "JYes", strL "Yes"),
    (strL "ANice", strL "Nice"), (strL "JGood", strL "Good"),
    (strL "ASounds", strL "Sounds"), (strL "JLet", strL "Let"),
    (strL "AWe", strL "We"), (strL "JWe", strL "We") ]

/-- Stage 4: apply the first matching prefix rewrite, then stop. -/
def fixMalformedStart (t : List Char) : List Char :=
  match malformedStarts.find? (fun p => p.1.isPrefixOf t) with
  | some p => p.2 ++ t.drop p.1.length
  | none => t

/-- The common sentence starter words of stage 5 (both inner lists of the
source are identical). -/
def commonStarters : List (List Char) :=
  [ strL "I" ++ [apos], strL "I ", strL "The", strL "They", strL "This",
    strL "That", strL "We", strL "You", strL "He", strL "She", strL "It",
    strL "Can", strL "Will", strL "Could", strL "Would", strL "Should",
    strL "Please", strL "Let", strL "All", strL "Good", strL "Yes",
    strL "No", strL "OK", strL "Alright", strL "Sure", strL "Thanks",
    strL "Thank" ]

/-- The symbol class of stage 5 pattern 1. -/
def symbolChars : List Char :=
  strL ".,[]\x7b\x7d()<>!@#$%^&*-+=|\\:;\"" ++ apos :: strL "`~_?/><"

/-- The sentence punctuation class of stage 5 pattern 2. -/
def punct2 : List Char := strL ".,;:!?"

/-- Stage 5: the single-character artifact heuristic.  Pattern 2 writes an
intermediate text (the OK recovery), but the final assignment guarded by
the likely-artifact flag overwrites it with the plain tail, exactly as the
source mutation sequence does. -/
def singleCharFix (t : List Char) : List Char :=
  match t with
  | [] => t
  | [_] => t
  | first :: rest =>
    let a1 : Bool :=
      (match rest with
       | r0 :: _ => r0.isUpper
       | [] => false)
      && (first.isAlphanum || symbolChars.contains first)
    let p2 : Option (List Char) :=
      if !a1 && decide (3 < rest.length) then
        match rest with
        | r0 :: r1 :: after2 =>
          if punct2.contains r0 && r1 == ' ' then
            if commonStarters.any (fun st => st.isPrefixOf after2) then
              some (if first.toUpper == 'K' && (strL ", ").isPrefixOf rest
                    then strL "OK" ++ rest else rest)
            else none
          else none
        | _ => none
      else none
    let a2 := p2.isSome
    let t2 := p2.getD t
    let a3 : Bool :=
      if !a1 && !a2 && decide (2 < rest.length) then
        commonStarters.any (fun st => st.isPrefixOf rest)
      else false
    if a1 || a2 || a3 then rest else t2

/-- Stage 6a substrings: the three quoted reaction markers. -/
def reactionArtifacts : List (List Char) :=
  [ strL "Emphasized " ++ [dqc], strL "Liked " ++ [dqc],
    strL "Disliked " ++ [dqc] ]

def reactionSubstrCheck (t : List Char) : Bool :=
  reactionArtifacts.any (fun p => containsSub p t)

/-- Tail admitted after the whitespace run of the looser stage 6b regex:
dot-star-dollar, so newline-free up to an optional final newline. -/
def noNLFinal (r : List Char) : Bool :=
  !(r.contains '\n')
    || (r.getLast? == some '\n' && !(r.dropLast.contains '\n'))

def looseAfter (r : List Char) : Bool :=
  match r with
  | c :: _ => isWs c && noNLFinal (r.dropWhile isWs)
  | [] => false

/-- re.match of dot-star, word, whitespace-plus, dot-star, dollar: the word
occurs in the first line, followed by at least one whitespace character and
then a tail the final dot-star admits. -/
def looseScan (w : List Char) : List Char → Bool
  | [] => false
  | c :: t =>
    (w.isPrefixOf (c :: t) && looseAfter ((c :: t).drop w.length))
      || (!(c == '\n') && looseScan w t)

def matchLoose (w : List Char) (t : List Char) : Bool := looseScan w t

/-- Stage 7: unwrap one layer of doubled double quotes. -/
def unwrapQuotes (t : List Char) : List Char :=
  if [dqc, dqc].isPrefixOf t && [dqc, dqc].isSuffixOf t then
    (t.drop 1).dropLast
  else t

/-- Stages 0 through 5 composed in source order. -/
def preClean (t : List Char) : List Char :=
  singleCharFix (fixMalformedStart (plusStrip (dropFromiI
    (removeCtrl (removeObjChar (stripStreamtyped t))))))

/-- The Normalizer `clean_message_text`: empty input returns the discard
signal; after the repair stages, reaction messages are discarded; otherwise
quotes are unwrapped and the ends trimmed. -/
def clean_message_text (t : List Char) : List Char :=
  if t.isEmpty then [] else
  let u := preClean t
  if reactionSubstrCheck u then [] else
  if matchLoose (strL "Emphasized") u || matchLoose (strL "Liked") u
      || matchLoose (strL "Disliked") u then [] else
  stripWs (unwrapQuotes u)

theorem sanity_clean_balright :
    clean_message_text (strL "BAlright, I" ++ apos :: strL "ll send it over")
      = strL "Alright, I" ++ apos :: strL "ll send it over" := by decide

theorem sanity_clean_tgood :
    clean_message_text (strL "TGood morning, can you check the DNS?")
      = strL "Good morning, can you check the DNS?" := by decide

theorem sanity_clean_liked :
    clean_message_text (strL "Liked " ++ dqc :: strL "check the site" ++ [dqc])
      = [] := by decide

/-! ## Rule tables: `src/thad-request-extractor/request_patterns.py` -/

def URGENCY_HIGH : List (List Char) :=
  [ strL "urgent", strL "asap", strL "immediately", strL "today",
    strL "critical", strL "emergency", strL "100% by" ]

def URGENCY_LOW : List (List Char) :=
  [ strL "when you can", strL "no rush", strL "whenever", strL "eventually" ]

def ACTION_KEYWORDS : List (List Char) :=
  [ strL "please", strL "can you", strL "could you", strL "need",
    strL "add", strL "update", strL "fix", strL "create", strL "setup",
    strL "configure", strL "install", strL "remove", strL "delete",
    strL "check", strL "review", strL "test", strL "migrate", strL "backup" ]

def WORK_KEYWORDS : List (List Char) :=
  [ strL "website", strL "site", strL "domain", strL "dns",
    strL "nameserver", strL "hosting", strL "form", strL "webhook",
    strL "email", strL "leads", strL "tag", strL "pixel", strL "analytics",
    strL "wordpress", strL "elementor", strL "plugin", strL "staging",
    strL "migration", strL "backup", strL "license", strL "credential",
    strL "login", strL "password" ]

/-- Matcher of request pattern 1: add, webhook, fluent with gaps,
case-insensitive search. -/
def matchAddWebhookFluent (t : List Char) : Bool :=
  searchChain [strL "add", strL "webhook", strL "fluent"] (lowerL t)

def matchGravityFormWebhook (t : List Char) : Bool :=
  searchChain [strL "gravity form", strL "webhook"] (lowerL t)

def matchNameserverCutover (t : List Char) : Bool :=
  searchChain [strL "nameserver", strL "cutover"] (lowerL t)

/-- Matcher of pattern 4: migrat then site or website (the group tries both
alternatives). -/
def matchMigrateSite (t : List Char) : Bool :=
  searchChain [strL "migrat", strL "site"] (lowerL t)
    || searchChain [strL "migrat", strL "website"] (lowerL t)

/-- Matcher of pattern 5: the top-level alternation backup, or zip then
site. -/
def matchBackupZipSite (t : List Char) : Bool :=
  containsSub (strL "backup") (lowerL t)
    || searchChain [strL "zip", strL "site"] (lowerL t)

def matchRemoveForm (t : List Char) : Bool :=
  searchChain [strL "remove", strL "form"] (lowerL t)

def matchPleaseUseEmail (t : List Char) : Bool :=
  containsSub (strL "please use this email") (lowerL t)

def matchUpdateLicense (t : List Char) : Bool :=
  searchChain [strL "update", strL "license"] (lowerL t)

/-- Matcher of pattern 9: can you then one of the five action verbs. -/
def matchCanYouAction (t : List Char) : Bool :=
  [strL "add", strL "create", strL "update", strL "fix", strL "check"].any
    (fun w => searchChain [strL "can you", w] (lowerL t))

def needAfterWs (r : List Char) : Bool :=
  match r with
  | c :: _ =>
    isWs c &&
      (let r2 := r.dropWhile isWs
       (strL "to").isPrefixOf r2 || (strL "you").isPrefixOf r2
         || (strL "help").isPrefixOf r2)
  | [] => false

def needAt (s : List Char) : Bool :=
  (strL "need").isPrefixOf s &&
    (needAfterWs (s.drop 4) ||
      (match s.drop 4 with
       | c :: r => c == 's' && needAfterWs r
       | [] => false))

/-- Matcher of pattern 10: need with optional s, a whitespace run, then to,
you or help. -/
def matchNeedToYouHelp (t : List Char) : Bool :=
  anyPos needAt (lowerL t)

structure PatternRule where
  pattern : List Char → Bool
  rtype : String
  category : String
  default_effort : String
  keywords : List String

/-- The ordered request pattern table REQUEST_PATTERNS. -/
def REQUEST_PATTERNS : List PatternRule :=
  [ ⟨matchAddWebhookFluent, "Form Integration", "Forms", "Small",
      ["webhook", "fluent", "integration"]⟩,
    ⟨matchGravityFormWebhook, "Form Integration", "Forms", "Small",
      ["gravity", "form", "webhook"]⟩,
    ⟨matchNameserverCutover, "DNS Cutover", "DNS", "Medium",
      ["nameserver", "dns", "cutover"]⟩,
    ⟨matchMigrateSite, "Site Migration", "Hosting", "Large",
      ["migrate", "migration", "transfer"]⟩,
    ⟨matchBackupZipSite, "Backup Request", "Hosting", "Medium",
      ["backup", "zip", "archive"]⟩,
    ⟨matchRemoveForm, "Form Removal", "Forms", "Small",
      ["remove", "delete", "form"]⟩,
    ⟨matchPleaseUseEmail, "Email Routing", "Email", "Small",
      ["email", "routing", "leads"]⟩,
    ⟨matchUpdateLicense, "License Update", "Billing", "Small",
      ["license", "update", "renewal"]⟩,
    ⟨matchCanYouAction, "General Request", "Support", "Medium",
      ["request", "help", "support"]⟩,
    ⟨matchNeedToYouHelp, "General Request", "Support", "Medium",
      ["need", "help", "assistance"]⟩ ]

/-- The ordered exclusion regex list EXCLUSION_PATTERNS, each compiled
pattern embedded as a case-insensitive search predicate on the raw text. -/
def EXCLUSION_PATTERNS : List (List Char → Bool) :=
  [ fun t => (strL "all good").isPrefixOf (lowerL t),
    fun t => (strL "got it").isPrefixOf (lowerL t),
    fun t => (strL "perfect").isPrefixOf (lowerL t),
    fun t => lineExact (strL "thank") (lowerL t)
              || lineExact (strL "thanks") (lowerL t),
    fun t => (strL "thank you").isPrefixOf (lowerL t),
    fun t => lineExact (strL "ok") (lowerL t),
    fun t => lineExact (strL "okay") (lowerL t),
    fun t => lineExact (strL "yes") (lowerL t),
    fun t => lineExact (strL "no") (lowerL t),
    fun t => (strL "sounds good").isPrefixOf (lowerL t),
    fun t => (strL "works for me").isPrefixOf (lowerL t),
    fun t => (strL "let me know").isPrefixOf (lowerL t),
    fun t => containsSub (strL "just wanted to let you know") (lowerL t)
              || containsSub (strL "just wanted to update") (lowerL t)
              || containsSub (strL "just wanted to mention") (lowerL t),
    fun t => searchChain [strL "got some ", strL " that might"] (lowerL t),
    fun t => (strL "i" ++ apos :: strL "ll call").isPrefixOf (lowerL t)
              || (strL "i" ++ apos :: strL "ll text").isPrefixOf (lowerL t)
              || (strL "i" ++ apos :: strL "ll email").isPrefixOf (lowerL t),
    fun t => (strL "just called").isPrefixOf (lowerL t)
              || (strL "just texted").isPrefixOf (lowerL t)
              || (strL "just emailed").isPrefixOf (lowerL t),
    fun t => containsSub (strL "respectfully") (lowerL t),
    fun t => (strL "sorry to bother").isPrefixOf (lowerL t),
    fun t => lineExact (strL "lol") (lowerL t),
    fun t => (strL "haha").isPrefixOf (lowerL t) ]

/-- The plain conversational phrase list NON_REQUEST_PHRASES. -/
def NON_REQUEST_PHRASES : List (List Char) :=
  [ strL "all good", strL "got it", strL "perfect", strL "sounds good",
    strL "works for me", strL "let me know", strL "just wanted to update",
    strL "just fyi", strL "heads up", strL "by the way", strL "btw",
    strL "just so you know",
    strL "for what it" ++ apos :: strL "s worth" ]

/-! ## Classifier: `src/thad-request-extractor/request_extractor.py` -/

/-- `extract_urgency`: lowercase the text, scan the high indicators first,
then the low ones, default Medium. -/
def extract_urgency (t : List Char) : String :=
  let tl := lowerL t
  if URGENCY_HIGH.any (fun k => containsSub k tl) then "High"
  else if URGENCY_LOW.any (fun k => containsSub k tl) then "Low"
  else "Medium"

def lowerReactionCheck (t : List Char) : Bool :=
  [strL "emphasized ", strL "liked ", strL "disliked "].any
    (fun k => containsSub k (stripWs (lowerL t)))

def exclusionRegexMatch (t : List Char) : Bool :=
  EXCLUSION_PATTERNS.any (fun p => p t)

def phraseStartCheck (t : List Char) : Bool :=
  NON_REQUEST_PHRASES.any
    (fun p => (lowerL p).isPrefixOf (stripWs (lowerL t)))

def shortMessageCheck (t : List Char) : Bool :=
  let tl := stripWs (lowerL t)
  decide (countTokens tl ≤ 2)
    && !(tl == strL "please help" || tl == strL "need help")

/-- `is_excluded_message`: the five sequential early-return checks of the
source, as a disjunction in the same order. -/
def is_excluded_message (t : List Char) : Bool :=
  reactionSubstrCheck t
    || lowerReactionCheck t
    || exclusionRegexMatch t
    || phraseStartCheck t
    || shortMessageCheck t

/-- `is_work_related`: not excluded, and a work keyword and an action
keyword both occur in the lowercased text. -/
def is_work_related (t : List Char) : Bool :=
  if is_excluded_message t then false
  else
    WORK_KEYWORDS.any (fun k => containsSub k (lowerL t))
      && ACTION_KEYWORDS.any (fun k => containsSub k (lowerL t))

/-- `extract_request_type`: exclusion first, then the ordered pattern
table with the first match winning, then the work-related fallback. -/
def extract_request_type (t : List Char) : Option (String × String × String) :=
  if is_excluded_message t then none
  else
    match REQUEST_PATTERNS.find? (fun r => r.pattern t) with
    | some r => some (r.rtype, r.category, r.default_effort)
    | none =>
      if is_work_related t then some ("General Request", "Support", "Medium")
      else none

/-- re.sub of one-or-more whitespace by a single space; the flag records
that the previous character was part of a run already replaced. -/
def collapseAux : Bool → List Char → List Char
  | _, [] => []
  | prevWs, c :: t =>
    if isWs c then
      (if prevWs then collapseAux true t else ' ' :: collapseAux true t)
    else c :: collapseAux false t

def collapseWs (t : List Char) : List Char :=
  stripWs (collapseAux false t)

structure Request where
  request_type : String
  category : String
  description : List Char
  urgency : String
  effort : String
  full_text : List Char
  message_length : Nat
deriving DecidableEq

/-- The per-message body of `process_messages`: classify, and when a type
came back build the record with the collapsed description, the urgency,
the raw text and its length. -/
def processMessage (t : List Char) : Option Request :=
  match extract_request_type t with
  | none => none
  | some (rt, cat, eff) =>
    some { request_type := rt, category := cat,
           description := collapseWs t,
           urgency := extract_urgency t,
           effort := eff,
           full_text := t,
           message_length := t.length }

theorem sanity_excluded_ok : is_excluded_message (strL "ok sure") = true := by decide

theorem sanity_not_excluded : is_excluded_message (strL "please help") = false := by decide

/-! ## Derived characterizations used by the claims -/

def hasHighIndicator (t : List Char) : Bool :=
  URGENCY_HIGH.any (fun k => containsSub k (lowerL t))

def hasLowIndicator (t : List Char) : Bool :=
  URGENCY_LOW.any (fun k => containsSub k (lowerL t))

/-- The exclusion regexes that carry a caret or are whole-line tests: they
can only fire on how the text begins (and, for the whole-line ones, ends),
listed in source order. -/
def anchoredExclusion (t : List Char) : Bool :=
  (strL "all good").isPrefixOf (lowerL t)
  || (strL "got it").isPrefixOf (lowerL t)
  || (strL "perfect").isPrefixOf (lowerL t)
  || (lineExact (strL "thank") (lowerL t)
       || lineExact (strL "thanks") (lowerL t))
  || (strL "thank you").isPrefixOf (lowerL t)
  || lineExact (strL "ok") (lowerL t)
  || lineExact (strL "okay") (lowerL t)
  || lineExact (strL "yes") (lowerL t)
  || lineExact (strL "no") (lowerL t)
  || (strL "sounds good").isPrefixOf (lowerL t)
  || (strL "works for me").isPrefixOf (lowerL t)
  || (strL "let me know").isPrefixOf (lowerL t)
  || ((strL "i" ++ apos :: strL "ll call").isPrefixOf (lowerL t)
       || (strL "i" ++ apos :: strL "ll text").isPrefixOf (lowerL t)
       || (strL "i" ++ apos :: strL "ll email").isPrefixOf (lowerL t))
  || ((strL "just called").isPrefixOf (lowerL t)
       || (strL "just texted").isPrefixOf (lowerL t)
       || (strL "just emailed").isPrefixOf (lowerL t))
  || (strL "sorry to bother").isPrefixOf (lowerL t)
  || lineExact (strL "lol") (lowerL t)
  || (strL "haha").isPrefixOf (lowerL t)

/-- The three exclusion regexes written without a caret: they fire on an
occurrence anywhere in the text. -/
def unanchoredExclusion (t : List Char) : Bool :=
  (containsSub (strL "just wanted to let you know") (lowerL t)
    || containsSub (strL "just wanted to update") (lowerL t)
    || containsSub (strL "just wanted to mention") (lowerL t))
  || searchChain [strL "got some ", strL " that might"] (lowerL t)
  || containsSub (strL "respectfully") (lowerL t)

/-! ## Claims -/

/-- C1 counterexample: the Normalizer is not idempotent on every input:
on ABC one round strips one leading character and a second round strips
another. -/
theorem c1_counterexample :
    clean_message_text (clean_message_text (strL "ABC"))
      ≠ clean_message_text (strL "ABC") := by decide

/-- C1 (amended): idempotence holds on the representative artifact-laden
inputs of the spec: re-cleaning their cleaned forms is a no-op. -/
theorem c1_idempotent_on_representatives :
    (clean_message_text (clean_message_text
        (strL "BAlright, I" ++ apos :: strL "ll send it over"))
      = clean_message_text (strL "BAlright, I" ++ apos :: strL "ll send it over"))
    ∧ (clean_message_text (clean_message_text
        (strL "TGood morning, can you check the DNS?"))
      = clean_message_text (strL "TGood morning, can you check the DNS?"))
    ∧ (clean_message_text (clean_message_text
        (strL "Liked " ++ dqc :: strL "check the site" ++ [dqc]))
      = clean_message_text (strL "Liked " ++ dqc :: strL "check the site" ++ [dqc])) := by
  refine ⟨by decide, by decide, by decide⟩

/-- C2: on the very input the special case targets, the cleaned text is
the plain deletion of the leading K, not the documented OK recovery: the
final guarded assignment of stage 5 overwrites the OK text. -/
theorem c2_ok_recovery_overwritten :
    clean_message_text (strL "K, I" ++ apos :: strL "m here")
        = strL ", I" ++ apos :: strL "m here"
    ∧ clean_message_text (strL "K, I" ++ apos :: strL "m here")
        ≠ strL "OK, I" ++ apos :: strL "m here" := by
  refine ⟨by decide, by decide⟩

/-- C3 counterexample: a message whose only conversational phrase sits
strictly after the start, with every other exclusion condition false, is
still excluded by the regex list: the respectfully pattern has no caret
and fires anywhere. -/
theorem c3_counterexample :
    exclusionRegexMatch (strL "Handle this respectfully today") = true
    ∧ (strL "respectfully").isPrefixOf
        (lowerL (strL "Handle this respectfully today")) = false
    ∧ reactionSubstrCheck (strL "Handle this respectfully today") = false
    ∧ lowerReactionCheck (strL "Handle this respectfully today") = false
    ∧ phraseStartCheck (strL "Handle this respectfully today") = false
    ∧ shortMessageCheck (strL "Handle this respectfully today") = false := by
  refine ⟨by decide, by decide, by decide, by decide, by decide, by decide⟩

set_option maxHeartbeats 1000000 in
/-- C3 (amended): the exclusion regex list fires exactly when a caret or
whole-line pattern matches at the start of the text, or one of the three
patterns written without a caret (just-wanted-to, got-some-that-might,
respectfully) occurs anywhere. -/
theorem c3_regex_anchored_except_three (t : List Char) :
    exclusionRegexMatch t = (anchoredExclusion t || unanchoredExclusion t) := by
  simp only [exclusionRegexMatch, EXCLUSION_PATTERNS, List.any_cons,
    List.any_nil, anchoredExclusion, unanchoredExclusion, Bool.or_false]
  rw [Bool.eq_iff_iff]
  simp only [Bool.or_eq_true]
  tauto

/-- C4: exclusion has absolute precedence: any message the exclusion check
rejects yields no request from the classifier, whatever else it matches. -/
theorem c4_exclusion_precedence (t : List Char)
    (h : is_excluded_message t = true) :
    extract_request_type t = none := by
  simp [extract_request_type, h]

/-- C4 witness: a message opening with sounds good is excluded even though
it matches the first pattern rule, and the classifier returns no request
on it. -/
theorem c4_exclusion_precedence_witness :
    is_excluded_message (strL "Sounds good, add the webhook to fluent") = true
    ∧ matchAddWebhookFluent (strL "Sounds good, add the webhook to fluent") = true
    ∧ extract_request_type (strL "Sounds good, add the webhook to fluent") = none :=
  ⟨by decide, by decide, c4_exclusion_precedence _ (by decide)⟩

/-- Finding the first satisfying element of a list: when position i
satisfies the predicate and every earlier position does not, find? returns
exactly the element at position i. -/
theorem find?_first {a : Type} (p : a → Bool) :
    ∀ (l : List a) (i : Nat) (hi : i < l.length),
      p (l.get ⟨i, hi⟩) = true →
      (∀ j (hj : j < i), p (l.get ⟨j, Nat.lt_trans hj hi⟩) = false) →
      l.find? p = some (l.get ⟨i, hi⟩)
  | [], i, hi, _, _ => absurd hi (by simp)
  | x :: l, 0, _, hmatch, _ => by
      have hm : p x = true := hmatch
      rw [List.find?_cons_of_pos _ hm]
      rfl
  | x :: l, i + 1, hi, hmatch, hfirst => by
      have hx : p x = false := hfirst 0 (Nat.succ_pos i)
      rw [List.find?_cons_of_neg _ (by simp [hx])]
      exact find?_first p l i (Nat.lt_of_succ_lt_succ hi) hmatch
        (fun j hj => hfirst (j + 1) (Nat.succ_lt_succ hj))

/-- C5: first match wins over the ordered pattern table: for every
non-excluded message, whichever rule is first in list order to match
supplies the request type, category and effort, and no later rule is
consulted. -/
theorem c5_first_match_wins (t : List Char) (i : Nat)
    (hi : i < REQUEST_PATTERNS.length)
    (hex : is_excluded_message t = false)
    (hmatch : (REQUEST_PATTERNS.get ⟨i, hi⟩).pattern t = true)
    (hfirst : ∀ j (hj : j < i),
      (REQUEST_PATTERNS.get ⟨j, Nat.lt_trans hj hi⟩).pattern t = false) :
    extract_request_type t
      = some ((REQUEST_PATTERNS.get ⟨i, hi⟩).rtype,
          (REQUEST_PATTERNS.get ⟨i, hi⟩).category,
          (REQUEST_PATTERNS.get ⟨i, hi⟩).default_effort) := by
  have hfind : REQUEST_PATTERNS.find? (fun r => r.pattern t)
      = some (REQUEST_PATTERNS.get ⟨i, hi⟩) :=
    find?_first (fun r => r.pattern t) REQUEST_PATTERNS i hi hmatch hfirst
  simp [extract_request_type, hex, hfind]

/-- C5 witness: a message matching both rule 1 and the later generic
can-you rule 9 is classified with the Forms category of rule 1; a message
whose first match is rule 5, while also matching rule 9, is classified
with the Hosting category of rule 5. -/
theorem c5_first_match_wins_witness :
    matchAddWebhookFluent (strL "Can you add the webhook to fluent please") = true
    ∧ matchCanYouAction (strL "Can you add the webhook to fluent please") = true
    ∧ extract_request_type (strL "Can you add the webhook to fluent please")
        = some ("Form Integration", "Forms", "Small")
    ∧ matchBackupZipSite (strL "Can you check the backup") = true
    ∧ matchCanYouAction (strL "Can you check the backup") = true
    ∧ extract_request_type (strL "Can you check the backup")
        = some ("Backup Request", "Hosting", "Medium") :=
  ⟨by decide, by decide,
   c5_first_match_wins (strL "Can you add the webhook to fluent please")
     0 (by decide) (by decide) (by decide)
     (fun j hj => absurd hj (Nat.not_lt_zero j)),
   by decide, by decide,
   c5_first_match_wins (strL "Can you check the backup")
     4 (by decide) (by decide) (by decide)
     (fun j hj => by
       match j, hj with
       | 0, _ => exact (by decide : (REQUEST_PATTERNS.get
           ⟨0, by decide⟩).pattern (strL "Can you check the backup") = false)
       | 1, _ => exact (by decide : (REQUEST_PATTERNS.get
           ⟨1, by decide⟩).pattern (strL "Can you check the backup") = false)
       | 2, _ => exact (by decide : (REQUEST_PATTERNS.get
           ⟨2, by decide⟩).pattern (strL "Can you check the backup") = false)
       | 3, _ => exact (by decide : (REQUEST_PATTERNS.get
           ⟨3, by decide⟩).pattern (strL "Can you check the backup") = false)
       | n + 4, h => exact absurd h (by omega))⟩

/-- C6: urgency precedence: any high indicator gives High even when a low
indicator is also present; only a low indicator gives Low; neither gives
Medium. -/
theorem c6_urgency_precedence (t : List Char) :
    (hasHighIndicator t = true → extract_urgency t = "High")
    ∧ (hasHighIndicator t = false → hasLowIndicator t = true →
        extract_urgency t = "Low")
    ∧ (hasHighIndicator t = false → hasLowIndicator t = false →
        extract_urgency t = "Medium") := by
  refine ⟨fun h => ?_, fun h h2 => ?_, fun h h2 => ?_⟩
  · simp only [hasHighIndicator] at h
    simp [extract_urgency, h]
  · simp only [hasHighIndicator] at h
    simp only [hasLowIndicator] at h2
    simp [extract_urgency, h, h2]
  · simp only [hasHighIndicator] at h
    simp only [hasLowIndicator] at h2
    simp [extract_urgency, h, h2]

/-- C6 witness: a text containing both urgent and when you can resolves to
High. -/
theorem c6_urgency_precedence_witness :
    hasHighIndicator (strL "urgent but when you can") = true
    ∧ hasLowIndicator (strL "urgent but when you can") = true
    ∧ extract_urgency (strL "urgent but when you can") = "High" :=
  ⟨by decide, by decide, (c6_urgency_precedence _).1 (by decide)⟩

/-- C7: the short-message rule: at most two tokens excludes the message
unless the lowercased trimmed text is exactly please help or need help;
please help is not excluded at all, ok sure is excluded. -/
theorem c7_short_message_rule :
    (∀ t : List Char, countTokens (stripWs (lowerL t)) ≤ 2 →
      stripWs (lowerL t) ≠ strL "please help" →
      stripWs (lowerL t) ≠ strL "need help" →
      is_excluded_message t = true)
    ∧ is_excluded_message (strL "please help") = false
    ∧ is_excluded_message (strL "ok sure") = true := by
  refine ⟨fun t h1 h2 h3 => ?_, by decide, by decide⟩
  have hs : shortMessageCheck t = true := by
    simp [shortMessageCheck, h1, h2, h3]
  simp [is_excluded_message, hs]

/-- C7 witness: a generic two-token message is excluded by the theorem. -/
theorem c7_short_message_rule_witness :
    is_excluded_message (strL "hello there") = true :=
  c7_short_message_rule.1 (strL "hello there") (by decide) (by decide) (by decide)

/-- C8: whenever a request is produced, its description is the cleaned
text with whitespace runs collapsed and ends trimmed, its full text is the
uncollapsed text and its length field counts the characters of that text;
no fixed cap is applied. -/
theorem c8_description_fields (t : List Char) (r : Request)
    (h : processMessage t = some r) :
    r.description = collapseWs t ∧ r.full_text = t
      ∧ r.message_length = t.length := by
  unfold processMessage at h
  cases heq : extract_request_type t with
  | none => rw [heq] at h; exact absurd h (by simp)
  | some v =>
    obtain ⟨rt, cat, eff⟩ := v
    rw [heq] at h
    simp only [Option.some.injEq] at h
    subst h
    exact ⟨rfl, rfl, rfl⟩

/-- C8 witness: the record built for a backup request over a text with a
doubled space: the description collapses it, the full text keeps it and
the length counts it. -/
theorem c8_description_fields_witness :
    (⟨"Backup Request", "Hosting", strL "Please backup the site", "Medium",
      "Medium", strL "Please backup  the site", 23⟩ : Request).description
        = collapseWs (strL "Please backup  the site")
    ∧ (⟨"Backup Request", "Hosting", strL "Please backup the site", "Medium",
        "Medium", strL "Please backup  the site", 23⟩ : Request).full_text
        = strL "Please backup  the site"
    ∧ (⟨"Backup Request", "Hosting", strL "Please backup the site", "Medium",
        "Medium", strL "Please backup  the site", 23⟩ : Request).message_length
        = (strL "Please backup  the site").length :=
  c8_description_fields (strL "Please backup  the site") _ (by decide)

/-- C9 counterexample: a message containing the Liked marker inside a
streamtyped wrapper is not discarded by the Normalizer: stage 0 consumes
the marker before the reaction check runs and a nonempty cleaned text
survives. -/
theorem c9_counterexample :
    reactionSubstrCheck (strL "streamtyped @ Liked " ++ dqc :: strL "a"
        ++ dqc :: strL " +hello there friend") = true
    ∧ clean_message_text (strL "streamtyped @ Liked " ++ dqc :: strL "a"
        ++ dqc :: strL " +hello there friend") = strL "hello there friend"
    ∧ strL "hello there friend" ≠ ([] : List Char) := by
  refine ⟨by decide, by decide, by decide⟩

/-- C9 (amended): the Liked example is discarded by the Normalizer and
excluded by the Classifier; any text containing a quoted reaction marker
is excluded by the Classifier unconditionally; and the Normalizer discards
any nonempty input whose repaired form still carries such a marker when
the reaction check runs. -/
theorem c9_reaction_suppression :
    clean_message_text (strL "Liked " ++ dqc :: strL "check the site" ++ [dqc]) = []
    ∧ is_excluded_message (strL "Liked " ++ dqc :: strL "check the site" ++ [dqc]) = true
    ∧ (∀ t : List Char, reactionSubstrCheck t = true →
        is_excluded_message t = true)
    ∧ (∀ t : List Char, t.isEmpty = false →
        reactionSubstrCheck (preClean t) = true →
        clean_message_text t = []) := by
  refine ⟨by decide, by decide, fun t h => ?_, fun t h1 h2 => ?_⟩
  · simp [is_excluded_message, h]
  · simp [clean_message_text, h1, h2]

/-- C9 witness: the Classifier part at a mid-text marker and the
Normalizer part at a marker text with one stray leading character. -/
theorem c9_reaction_suppression_witness :
    is_excluded_message (strL "xx Liked " ++ dqc :: strL "y" ++ [dqc]) = true
    ∧ clean_message_text (strL "XLiked " ++ dqc :: strL "z" ++ [dqc]) = [] :=
  ⟨c9_reaction_suppression.2.2.1 _ (by decide),
   c9_reaction_suppression.2.2.2 _ (by decide) (by decide)⟩

/-- Occurrence test for the two-character key of stage 2: a lowercase i
immediately followed by an uppercase I. -/
def hasiI : List Char → Bool
  | [] => false
  | c :: t => (c == 'i' && t.head? == some 'I') || hasiI t

/-- C10 counterexample: an input containing the key followed by an
embedded newline passes the whole Normalizer unchanged: the dot of the
stage 2 regex cannot cross the line, so nothing after the key is
removed. -/
theorem c10_counterexample :
    containsSub (strL "iI") (strL "aiIb\ncd e f g") = true
    ∧ clean_message_text (strL "aiIb\ncd e f g") = strL "aiIb\ncd e f g"
    ∧ strL "aiIb\ncd e f g" ≠ strL "a" := by
  refine ⟨by decide, by decide, by decide⟩

/-- C10 (amended): when the text after the first occurrence of the key
contains no newline, stage 2 deletes from that occurrence to the end of
the string. -/
theorem c10_iI_removal (a b : List Char)
    (h1 : hasiI (a ++ ['i']) = false)
    (h2 : b.contains '\n' = false) :
    dropFromiI (a ++ 'i' :: 'I' :: b) = a := by
  induction a with
  | nil =>
    show dropFromiI ('i' :: 'I' :: b) = []
    have hb : ('\n' : Char) ∉ b := by simpa using h2
    simp [dropFromiI, tailRepl, hb]
  | cons x a ih =>
    obtain ⟨hA, hB⟩ : (x == 'i' && (a ++ ['i']).head? == some 'I') = false
        ∧ hasiI (a ++ ['i']) = false := by
      have hstep : hasiI ((x :: a) ++ ['i'])
          = ((x == 'i' && (a ++ ['i']).head? == some 'I') || hasiI (a ++ ['i'])) := rfl
      rw [hstep] at h1
      exact Bool.or_eq_false_iff.mp h1
    have hcond : ¬ (x = 'i' ∧ (a ++ 'i' :: 'I' :: b).head? = some 'I') := by
      rintro ⟨hx, hh⟩
      subst hx
      cases a with
      | nil => simp at hh
      | cons y a2 =>
        have hy : y = 'I' := by simpa using hh
        subst hy
        simp at hA
    show dropFromiI (x :: (a ++ 'i' :: 'I' :: b)) = x :: a
    have step : dropFromiI (x :: (a ++ 'i' :: 'I' :: b))
        = x :: dropFromiI (a ++ 'i' :: 'I' :: b) := by
      simp only [dropFromiI, hcond, if_false]
    rw [step, ih hB]

/-- C10 witness: a concrete first occurrence with a newline-free tail is
cut to the end of the string. -/
theorem c10_iI_removal_witness :
    dropFromiI (strL "ab" ++ 'i' :: 'I' :: strL "cd") = strL "ab" :=
  c10_iI_removal (strL "ab") (strL "cd") (by decide) (by decide)

/-- C3 amended witness: the characterization evaluated at a concrete
message. -/
theorem c3_regex_anchored_except_three_witness :
    exclusionRegexMatch (strL "ok")
      = (anchoredExclusion (strL "ok") || unanchoredExclusion (strL "ok")) :=
  c3_regex_anchored_except_three (strL "ok")
